import Mathlib

/-!
Shallow embedding of the FEEL-FRAME backend (src/app.py): a Flask app that
chains a text-emotion classifier, a text-to-image generator, an image
resizer and an image-to-video generator behind one POST endpoint.

Remote services, the filesystem and the uuid generator are modelled as an
explicit environment of oracles; the pipeline is a pure function from the
environment and the request to an HTTP response together with a trace of
the side effects it performed (remote calls, file writes, file moves).
-/

namespace FeelFrame

/-- Fixed model identifier for text-to-image (src/app.py line 20). -/
def IMAGE_MODEL : String := "stabilityai/stable-diffusion-xl-base-1.0"

/-- Fixed model identifier for emotion detection (src/app.py line 22). -/
def EMOTION_MODEL : String := "j-hartmann/emotion-english-distilroberta-base"

/-- Fixed remote video-generation space (src/app.py line 24). -/
def VIDEO_SPACE : String := "multimodalart/stable-video-diffusion"

/-- The generated-assets directory (src/app.py line 27). -/
def GENERATED_DIR : String := "static/generated/"

/-- One (label, confidence score) pair returned by the remote
text-classification service. Scores are modelled as rationals. -/
structure ClassEntry where
  label : String
  score : ℚ
deriving DecidableEq

/-- Stable insertion for a descending sort by score: an element is placed
before the first element whose score it reaches, so an element earlier in
the original list precedes equal-scored later elements. -/
def insertDesc (x : ClassEntry) : List ClassEntry → List ClassEntry
  | [] => [x]
  | y :: ys => if y.score ≤ x.score then x :: y :: ys else y :: insertDesc x ys

/-- Models Python sorted(response, key=score, reverse=True): a stable
descending sort by score (Python sorted is stable also with reverse=True;
equal-scored entries keep the order the service returned). -/
def pySortedDesc : List ClassEntry → List ClassEntry
  | [] => []
  | x :: xs => insertDesc x (pySortedDesc xs)

/-- Models the Python f-string rendering of a possibly-None form value:
f-string interpolation of None yields the string None. -/
def pyStr : Option String → String
  | none => "None"
  | some t => t

/-- Result of analyze_emotion: the label, and whether the remote
classification service was invoked. -/
def analyze_emotion (text : Option String)
    (classify : String → String → Except String (List ClassEntry)) :
    String × Bool :=
  match text with
  | none => ("neutral", false)
  | some t =>
    if t = "" then ("neutral", false)
    else
      match classify t EMOTION_MODEL with
      | .error _ => ("neutral", true)
      | .ok response =>
        match (pySortedDesc response).head? with
        | none => ("neutral", true)
        | some top => (top.label, true)

/-- PIL resampling filters (only Lanczos is used by the source). -/
inductive Resample
  | lanczos
  | nearest
  | bilinear
  | bicubic
deriving DecidableEq

/-- Provenance of the pixel content of an image: pixels depend on the
conversions and resamplings applied, so the embedding records them. -/
inductive PixelData
  | source (id : Nat)
  | converted (mode : String) (d : PixelData)
  | resized (w h : Nat) (filter : Resample) (d : PixelData)
deriving DecidableEq

/-- A PIL image: dimensions, color mode and pixel provenance. -/
structure PImage where
  width : Nat
  height : Nat
  mode : String
  data : PixelData
deriving DecidableEq

/-- Models PIL Image.convert: changes the color mode (RGB drops alpha). -/
def PImage.convert (img : PImage) (mode : String) : PImage :=
  { img with mode := mode, data := .converted mode img.data }

/-- Models PIL Image.resize with an explicit resampling filter. -/
def PImage.resizePil (img : PImage) (size : Nat × Nat) (f : Resample) : PImage :=
  { img with width := size.1, height := size.2,
             data := .resized size.1 size.2 f img.data }

/-- Content written to disk by a save call. -/
inductive FileContent
  | uploadBytes (bytes : List Nat)
  | jpeg (img : PImage) (quality : Nat) (optimize : Bool)
deriving DecidableEq

/-- Observable side effects of one request. -/
inductive Event
  | t2iCall (prompt : String) (model : String)
  | fileWrite (path : String) (content : FileContent)
  | videoCall (path : String) (motion : Nat) (fps : Nat) (api : String) (space : String)
  | move (src : String) (dst : String)
deriving DecidableEq

/-- The environment of oracles a request runs against: the three remote
services, the filesystem, and the stream of uuid4 values (indexed by the
order of the uuid4 calls within the request). An Except.error or a some
result of a filesystem oracle models a raised exception carrying the
textual message str(e). -/
structure Env where
  classify : String → String → Except String (List ClassEntry)
  text_to_image : String → String → Except String PImage
  openImage : String → Except String PImage
  save : String → FileContent → Option String
  predict : String → String → Nat → Nat → String → Except String String
  moveFile : String → String → Option String
  uuids : Nat → String

/-- An incoming POST request: the text form field (None when absent) and
the optional image upload, as raw bytes. -/
structure Request where
  text : Option String
  image : Option (List Nat)

/-- The data of a successful run: detected emotion and final video name. -/
structure Success where
  emotion : String
  video_name : String
deriving DecidableEq

/-- The fixed emotion-to-style table (src/app.py lines 102-109). -/
def style_map : List (String × String) :=
  [("joy", "bright, vibrant, warm lighting, happy atmosphere"),
   ("sadness", "rain, dark blue tones, cinematic, gloomy, lonely"),
   ("fear", "misty, horror, dark, cold tones, mysterious"),
   ("love", "romantic, soft focus, pink and red tones, dreamy"),
   ("anger", "intense, red, fire, high contrast, dramatic"),
   ("neutral", "cinematic, photorealistic")]

/-- Models style_map.get(emotion, cinematic fallback). -/
def styleOf (emotion : String) : String :=
  (style_map.lookup emotion).getD "cinematic"

/-- Step B of generate (src/app.py lines 96-126): obtain the base image,
either by persisting the upload or by calling text-to-image and persisting
the result. Returns the base path (or the raised message) and the trace. -/
def stepB (env : Env) (req : Request) (emotion : String) :
    Except String String × List Event :=
  match req.image with
  | some bytes =>
    let base_path := GENERATED_DIR ++ ("upload_" ++ env.uuids 0 ++ ".jpg")
    let ev := [Event.fileWrite base_path (.uploadBytes bytes)]
    match env.save base_path (.uploadBytes bytes) with
    | some e => (.error e, ev)
    | none => (.ok base_path, ev)
  | none =>
    let style := styleOf emotion
    let full_prompt := pyStr req.text ++ ", " ++ style ++ ", 8k, highly detailed, movie scene"
    let ev := [Event.t2iCall full_prompt IMAGE_MODEL]
    match env.text_to_image full_prompt IMAGE_MODEL with
    | .error e => (.error e, ev)
    | .ok generated_img =>
      let base_path := GENERATED_DIR ++ ("gen_" ++ env.uuids 0 ++ ".jpg")
      let ev2 := ev ++ [Event.fileWrite base_path (.jpeg generated_img 85 false)]
      match env.save base_path (.jpeg generated_img 85 false) with
      | some e => (.error e, ev2)
      | none => (.ok base_path, ev2)

/-- Models resize_for_video (src/app.py lines 53-75): open the base image,
convert to RGB, resize to 1024x576 with Lanczos, save as JPEG at quality 85
with optimize, under a fresh resized_ filename. -/
def resize_for_video (env : Env) (image_path : String) :
    Except String String × List Event :=
  match env.openImage image_path with
  | .error e => (.error e, [])
  | .ok img0 =>
    let img := (img0.convert "RGB").resizePil (1024, 576) .lanczos
    let save_path := GENERATED_DIR ++ ("resized_" ++ env.uuids 1 ++ ".jpg")
    let ev := [Event.fileWrite save_path (.jpeg img 85 true)]
    match env.save save_path (.jpeg img 85 true) with
    | some e => (.error e, ev)
    | none => (.ok save_path, ev)

/-- Step D of generate (src/app.py lines 135-153): submit the resized image
to the remote video space with motion 0, fps 10, api_name /video; on
success move the returned temporary video into a fresh dream_ name. -/
def stepD (env : Env) (resized_path : String) :
    Except String String × List Event :=
  let ev := [Event.videoCall resized_path 0 10 "/video" VIDEO_SPACE]
  match env.predict VIDEO_SPACE resized_path 0 10 "/video" with
  | .error e => (.error e, ev)
  | .ok temp_video_path =>
    let final_video_name := "dream_" ++ env.uuids 2 ++ ".mp4"
    let final_video_path := GENERATED_DIR ++ final_video_name
    let ev2 := ev ++ [Event.move temp_video_path final_video_path]
    match env.moveFile temp_video_path final_video_path with
    | some e => (.error e, ev2)
    | none => (.ok final_video_name, ev2)

/-- The try-block of generate (src/app.py lines 83-160): the linear
pipeline classify, base image, resize, video. Classification never raises;
any later raise aborts with the textual message. -/
def tryBlock (env : Env) (req : Request) :
    Except String Success × List Event :=
  match stepB env req (analyze_emotion req.text env.classify).1 with
  | (.error e, ev) => (.error e, ev)
  | (.ok base_path, ev) =>
    match resize_for_video env base_path with
    | (.error e, ev2) => (.error e, ev ++ ev2)
    | (.ok resized_path, ev2) =>
      match stepD env resized_path with
      | (.error e, ev3) => (.error e, ev ++ ev2 ++ ev3)
      | (.ok final_video_name, ev3) =>
        (.ok ⟨(analyze_emotion req.text env.classify).1, final_video_name⟩,
         ev ++ ev2 ++ ev3)

/-- An HTTP response: status code and JSON body as ordered key-value pairs. -/
structure HttpResponse where
  code : Nat
  body : List (String × String)
deriving DecidableEq

/-- The POST /generate handler (src/app.py lines 81-167): run the pipeline,
return 200 with status success, video_url and emotion on success, and 500
with status error and the exception message otherwise. -/
def generate (env : Env) (req : Request) : HttpResponse × List Event :=
  match tryBlock env req with
  | (.ok s, evs) =>
    ({ code := 200,
       body := [("status", "success"),
                ("video_url", "/static/generated/" ++ s.video_name),
                ("emotion", s.emotion)] }, evs)
  | (.error e, evs) =>
    ({ code := 500, body := [("status", "error"), ("message", e)] }, evs)

/-- A list-element is maximal by score (as a boolean predicate). -/
def maxIn (l : List ClassEntry) (x : ClassEntry) : Bool :=
  l.all fun y => decide (y.score ≤ x.score)

/-- The first element of the list attaining the maximum score. -/
def firstMax : List ClassEntry → Option ClassEntry
  | [] => none
  | x :: xs =>
    match firstMax xs with
    | none => some x
    | some m => if m.score ≤ x.score then some x else some m

/-- A concrete environment in which every remote call and every disk
operation succeeds (used to instantiate the theorems). -/
def envOk : Env where
  classify := fun _ _ => .ok [⟨"joy", 1⟩]
  text_to_image := fun _ _ => .ok ⟨1024, 1024, "RGB", .source 3⟩
  openImage := fun _ => .ok ⟨640, 480, "RGBA", .source 7⟩
  save := fun _ _ => none
  predict := fun _ _ _ _ _ => .ok "/tmp/gradio/abc/video.mp4"
  moveFile := fun _ _ => none
  uuids := fun _ => "u"

/-- As envOk, but the remote video service raises a connection error. -/
def envVideoDown : Env :=
  { envOk with predict := fun _ _ _ _ _ => .error "Connection errored out" }

/-- As envOk, but the classification service returns the label disgust,
which the actual remote emotion model can produce and which lies outside
the closed set of the specification. -/
def envDisgust : Env :=
  { envOk with classify := fun _ _ => .ok [⟨"disgust", 1⟩] }

/-- A concrete request carrying an uploaded image (PNG magic bytes). -/
def reqUpload : Request := ⟨some "", some [137, 80, 78, 71]⟩

/-- A concrete request carrying only a story text. -/
def reqText : Request := ⟨some "a story", none⟩

/-! Lemmas about the stable descending sort -/

theorem head?_insertDesc (x : ClassEntry) (l : List ClassEntry) :
    (insertDesc x l).head? =
      some (match l.head? with
            | none => x
            | some y => if y.score ≤ x.score then x else y) := by
  cases l with
  | nil => rfl
  | cons y ys =>
    by_cases h : y.score ≤ x.score <;> simp [insertDesc, h]

theorem firstMax_eq_none_iff (l : List ClassEntry) :
    firstMax l = none ↔ l = [] := by
  cases l with
  | nil => simp [firstMax]
  | cons x xs =>
    cases hx : firstMax xs with
    | none => simp [firstMax, hx]
    | some m =>
      simp only [firstMax, hx]
      split <;> simp

theorem head?_pySortedDesc (l : List ClassEntry) :
    (pySortedDesc l).head? = firstMax l := by
  induction l with
  | nil => rfl
  | cons x xs ih =>
    simp only [pySortedDesc]
    rw [head?_insertDesc, ih]
    cases hs : firstMax xs with
    | none => simp [firstMax, hs]
    | some m =>
      simp only [firstMax, hs]
      by_cases hle : m.score ≤ x.score <;> simp [hle]

theorem firstMax_mem {l : List ClassEntry} {m : ClassEntry}
    (h : firstMax l = some m) : m ∈ l := by
  induction l with
  | nil => simp [firstMax] at h
  | cons x xs ih =>
    cases hx : firstMax xs with
    | none =>
      simp only [firstMax, hx] at h
      cases h
      simp
    | some m₀ =>
      simp only [firstMax, hx] at h
      by_cases hle : m₀.score ≤ x.score
      · rw [if_pos hle] at h
        cases h
        simp
      · rw [if_neg hle] at h
        cases h
        exact List.mem_cons_of_mem x (ih hx)

theorem firstMax_maximal {l : List ClassEntry} :
    ∀ {m : ClassEntry}, firstMax l = some m → ∀ y ∈ l, y.score ≤ m.score := by
  induction l with
  | nil => intro m h; simp [firstMax] at h
  | cons x xs ih =>
    intro m h y hy
    cases hx : firstMax xs with
    | none =>
      have hxs : xs = [] := (firstMax_eq_none_iff xs).1 hx
      subst hxs
      simp only [firstMax] at h
      cases h
      simp only [List.mem_singleton] at hy
      subst hy
      exact le_refl _
    | some m₀ =>
      simp only [firstMax, hx] at h
      by_cases hle : m₀.score ≤ x.score
      · rw [if_pos hle] at h
        cases h
        rcases List.mem_cons.1 hy with rfl | hy₂
        · exact le_refl _
        · exact le_trans (ih hx y hy₂) hle
      · rw [if_neg hle] at h
        cases h
        rcases List.mem_cons.1 hy with rfl | hy₂
        · exact le_of_not_le hle
        · exact ih hx y hy₂

theorem find?_and_of_find? (p b : ClassEntry → Bool) (l : List ClassEntry)
    (m : ClassEntry) (hf : l.find? p = some m) (hb : b m = true) :
    l.find? (fun z => b z && p z) = some m := by
  induction l with
  | nil => simp at hf
  | cons z zs ih =>
    rw [List.find?_cons] at hf ⊢
    cases hp : p z with
    | true =>
      rw [hp] at hf
      cases hf
      simp [hb, hp]
    | false =>
      rw [hp] at hf
      simp only [Bool.and_false, cond_false]
      exact ih hf

theorem firstMax_eq_find?_maxIn (l : List ClassEntry) :
    firstMax l = l.find? (maxIn l) := by
  induction l with
  | nil => simp [firstMax]
  | cons x xs ih =>
    cases hx : firstMax xs with
    | none =>
      have hxs : xs = [] := (firstMax_eq_none_iff xs).1 hx
      subst hxs
      simp [firstMax, List.find?, maxIn]
    | some m =>
      simp only [firstMax, hx]
      rw [hx] at ih
      have hmax : ∀ y ∈ xs, y.score ≤ m.score := firstMax_maximal hx
      have hcons : maxIn (x :: xs) = fun z => decide (x.score ≤ z.score) && maxIn xs z := by
        funext z
        simp [maxIn, List.all_cons]
      by_cases hle : m.score ≤ x.score
      · have hx_max : maxIn (x :: xs) x = true := by
          simp only [maxIn, List.all_eq_true, decide_eq_true_eq]
          intro y hy
          rcases List.mem_cons.1 hy with rfl | hy₂
          · exact le_refl _
          · exact le_trans (hmax y hy₂) hle
        rw [List.find?_cons, hx_max]
        simp [hle]
      · have hx_not : maxIn (x :: xs) x = false := by
          rw [Bool.eq_false_iff]
          intro hall
          simp only [maxIn] at hall
          have h2 := List.all_eq_true.1 hall m (List.mem_cons_of_mem x (firstMax_mem hx))
          exact hle (by simpa using h2)
        rw [List.find?_cons, hx_not]
        simp only [cond_false, if_neg hle]
        rw [hcons]
        exact (find?_and_of_find? (maxIn xs) _ xs m ih.symm
          (decide_eq_true (le_of_not_le hle))).symm

theorem mem_insertDesc {z x : ClassEntry} {l : List ClassEntry} :
    z ∈ insertDesc x l ↔ z = x ∨ z ∈ l := by
  induction l with
  | nil => simp [insertDesc]
  | cons y ys ih =>
    simp only [insertDesc]
    split
    · simp
    · simp only [List.mem_cons, ih]
      tauto

theorem mem_of_mem_pySortedDesc {z : ClassEntry} {l : List ClassEntry}
    (h : z ∈ pySortedDesc l) : z ∈ l := by
  induction l with
  | nil => simp [pySortedDesc] at h
  | cons x xs ih =>
    simp only [pySortedDesc] at h
    rcases mem_insertDesc.1 h with rfl | h
    · simp
    · exact List.mem_cons_of_mem x (ih h)

/-! Claims about the emotion classifier adapter -/

/-- Claim C1: if the story text is empty or null the classifier adapter
returns neutral without invoking the remote classification service (the
invoked flag is false, for every possible service); and if the remote call
fails for any reason it returns neutral without propagating the error
(analyze_emotion is a total function into String, so no exception escapes). -/
theorem C1_empty_or_failure_yields_neutral :
    (∀ (text : Option String)
       (classify : String → String → Except String (List ClassEntry)),
       text = none ∨ text = some "" →
       analyze_emotion text classify = ("neutral", false)) ∧
    (∀ (t : String)
       (classify : String → String → Except String (List ClassEntry))
       (e : String), t ≠ "" → classify t EMOTION_MODEL = .error e →
       analyze_emotion (some t) classify = ("neutral", true)) := by
  constructor
  · rintro text classify (rfl | rfl) <;> simp [analyze_emotion]
  · intro t classify e ht hc
    simp [analyze_emotion, ht, hc]

/-- Witness for C1 at concrete inputs: a null text with an arbitrary
failing service, and a non-empty text whose remote call raises. -/
theorem C1_empty_or_failure_yields_neutral_witness :
    analyze_emotion none (fun _ _ => .error "down") = ("neutral", false) ∧
    analyze_emotion (some "a story")
      (fun _ _ => .error "connection refused") = ("neutral", true) :=
  ⟨C1_empty_or_failure_yields_neutral.1 none _ (Or.inl rfl),
   C1_empty_or_failure_yields_neutral.2 "a story" _ "connection refused"
     (by decide) rfl⟩

/-- Claim C7: for a non-empty text where the remote service returns a list
of (label, score) pairs, the adapter returns the label of the first pair
attaining the maximum score, in the order the service returned the pairs
(stable tie-breaking of the Python sorted with reverse). -/
theorem C7_returns_first_max_label (t : String)
    (classify : String → String → Except String (List ClassEntry))
    (resp : List ClassEntry) (e : ClassEntry)
    (ht : t ≠ "") (hc : classify t EMOTION_MODEL = .ok resp)
    (hfind : resp.find? (maxIn resp) = some e) :
    analyze_emotion (some t) classify = (e.label, true) := by
  have hhead : (pySortedDesc resp).head? = some e := by
    rw [head?_pySortedDesc, firstMax_eq_find?_maxIn]
    exact hfind
  simp [analyze_emotion, ht, hc, hhead]

/-- Witness for C7: two pairs share the maximum score and the first one in
service order wins. -/
theorem C7_returns_first_max_label_witness :
    analyze_emotion (some "mixed feelings")
      (fun _ _ => .ok [⟨"sadness", 2⟩, ⟨"joy", 2⟩, ⟨"fear", 1⟩])
      = ("sadness", true) :=
  C7_returns_first_max_label "mixed feelings" _
    [⟨"sadness", 2⟩, ⟨"joy", 2⟩, ⟨"fear", 1⟩] ⟨"sadness", 2⟩
    (by decide) rfl (by decide)

/-! Claims about the style lookup -/

/-- Claim C5: the style lookup is a pure function; every label present in
the fixed table maps to exactly its configured phrase, and every label not
present, including surprise, maps to the fixed fallback cinematic. -/
theorem C5_style_lookup_total :
    (∀ p ∈ style_map, styleOf p.1 = p.2) ∧
    (∀ s : String, s ∉ style_map.map Prod.fst → styleOf s = "cinematic") ∧
    styleOf "surprise" = "cinematic" := by
  refine ⟨by decide, ?_, by decide⟩
  intro s hs
  simp only [style_map, List.map, List.mem_cons, List.not_mem_nil, or_false] at hs
  push_neg at hs
  obtain ⟨h1, h2, h3, h4, h5, h6⟩ := hs
  have e1 : (s == "joy") = false := beq_eq_false_iff_ne.2 h1
  have e2 : (s == "sadness") = false := beq_eq_false_iff_ne.2 h2
  have e3 : (s == "fear") = false := beq_eq_false_iff_ne.2 h3
  have e4 : (s == "love") = false := beq_eq_false_iff_ne.2 h4
  have e5 : (s == "anger") = false := beq_eq_false_iff_ne.2 h5
  have e6 : (s == "neutral") = false := beq_eq_false_iff_ne.2 h6
  simp [styleOf, style_map, List.lookup, e1, e2, e3, e4, e5, e6]

/-- Witness for C5 at concrete labels: a present label returns its phrase,
and the absent label disgust falls back to cinematic. -/
theorem C5_style_lookup_total_witness :
    styleOf "joy" = "bright, vibrant, warm lighting, happy atmosphere" ∧
    styleOf "disgust" = "cinematic" :=
  ⟨C5_style_lookup_total.1 ("joy", "bright, vibrant, warm lighting, happy atmosphere")
     (by decide),
   C5_style_lookup_total.2.1 "disgust" (by decide)⟩

/-! Lemmas about the pipeline steps and the orchestrator -/

theorem generate_events (env : Env) (req : Request) :
    (generate env req).2 = (tryBlock env req).2 := by
  unfold generate
  rcases tryBlock env req with ⟨r, evs⟩
  cases r <;> rfl

theorem stepB_upload_eq (env : Env) (req : Request) (emotion : String)
    (bytes : List Nat) (h : req.image = some bytes) :
    (stepB env req emotion).2 =
      [Event.fileWrite (GENERATED_DIR ++ ("upload_" ++ env.uuids 0 ++ ".jpg"))
        (.uploadBytes bytes)] := by
  simp only [stepB, h]
  cases env.save (GENERATED_DIR ++ ("upload_" ++ env.uuids 0 ++ ".jpg"))
      (.uploadBytes bytes) <;> rfl

theorem append_ext_eq (a x ext : String) :
    a ++ (x ++ ext) = (a ++ x) ++ ext :=
  (String.append_assoc a x ext).symm

theorem stepB_events_shape (env : Env) (req : Request) (emotion : String) :
    ∀ e ∈ (stepB env req emotion).2,
      (∃ p, e = Event.t2iCall p IMAGE_MODEL) ∨
      (∃ s c, e = Event.fileWrite (s ++ ".jpg") c) := by
  intro e he
  cases himg : req.image with
  | some bytes =>
    rw [stepB_upload_eq env req emotion bytes himg] at he
    simp only [List.mem_singleton] at he
    subst he
    right
    exact ⟨GENERATED_DIR ++ ("upload_" ++ env.uuids 0), _, by rw [append_ext_eq]⟩
  | none =>
    cases ht : env.text_to_image
        (pyStr req.text ++ ", " ++ styleOf emotion ++ ", 8k, highly detailed, movie scene")
        IMAGE_MODEL with
    | error err =>
      simp only [stepB, himg, ht, List.mem_singleton] at he
      subst he
      exact Or.inl ⟨_, rfl⟩
    | ok img =>
      have key :
          e ∈ [Event.t2iCall
                 (pyStr req.text ++ ", " ++ styleOf emotion ++ ", 8k, highly detailed, movie scene")
                 IMAGE_MODEL] ++
              [Event.fileWrite (GENERATED_DIR ++ ("gen_" ++ env.uuids 0 ++ ".jpg"))
                 (.jpeg img 85 false)] := by
        cases hs : env.save (GENERATED_DIR ++ ("gen_" ++ env.uuids 0 ++ ".jpg"))
            (.jpeg img 85 false) <;> simpa only [stepB, himg, ht, hs] using he
      rcases List.mem_append.1 key with h1 | h1 <;> simp only [List.mem_singleton] at h1 <;>
        subst h1
      · exact Or.inl ⟨_, rfl⟩
      · exact Or.inr ⟨GENERATED_DIR ++ ("gen_" ++ env.uuids 0), _, by rw [append_ext_eq]⟩

theorem stepB_none_t2i (env : Env) (req : Request) (emotion : String)
    (h : req.image = none) :
    Event.t2iCall
        (pyStr req.text ++ ", " ++ styleOf emotion ++ ", 8k, highly detailed, movie scene")
        IMAGE_MODEL ∈ (stepB env req emotion).2 := by
  cases ht : env.text_to_image
      (pyStr req.text ++ ", " ++ styleOf emotion ++ ", 8k, highly detailed, movie scene")
      IMAGE_MODEL with
  | error err => simp [stepB, h, ht]
  | ok img =>
    cases hs : env.save (GENERATED_DIR ++ ("gen_" ++ env.uuids 0 ++ ".jpg"))
        (.jpeg img 85 false) <;> simp [stepB, h, ht, hs]

theorem resize_events_shape (env : Env) (p : String) :
    ∀ e ∈ (resize_for_video env p).2,
      ∃ img, e = Event.fileWrite (GENERATED_DIR ++ ("resized_" ++ env.uuids 1 ++ ".jpg"))
        (.jpeg img 85 true) := by
  intro e he
  cases ho : env.openImage p with
  | error err => simp [resize_for_video, ho] at he
  | ok img0 =>
    have key : e ∈ [Event.fileWrite (GENERATED_DIR ++ ("resized_" ++ env.uuids 1 ++ ".jpg"))
        (.jpeg ((img0.convert "RGB").resizePil (1024, 576) .lanczos) 85 true)] := by
      cases hs : env.save (GENERATED_DIR ++ ("resized_" ++ env.uuids 1 ++ ".jpg"))
          (.jpeg ((img0.convert "RGB").resizePil (1024, 576) .lanczos) 85 true) <;>
        simpa only [resize_for_video, ho, hs] using he
    simp only [List.mem_singleton] at key
    subst key
    exact ⟨_, rfl⟩

theorem stepD_events_shape (env : Env) (rp : String) :
    ∀ e ∈ (stepD env rp).2,
      e = Event.videoCall rp 0 10 "/video" VIDEO_SPACE ∨
      ∃ src, e = Event.move src (GENERATED_DIR ++ ("dream_" ++ env.uuids 2 ++ ".mp4")) := by
  intro e he
  cases hp : env.predict VIDEO_SPACE rp 0 10 "/video" with
  | error err =>
    simp only [stepD, hp, List.mem_singleton] at he
    exact Or.inl he
  | ok temp =>
    have key : e ∈ [Event.videoCall rp 0 10 "/video" VIDEO_SPACE] ++
        [Event.move temp (GENERATED_DIR ++ ("dream_" ++ env.uuids 2 ++ ".mp4"))] := by
      cases hm : env.moveFile temp (GENERATED_DIR ++ ("dream_" ++ env.uuids 2 ++ ".mp4")) <;>
        simpa only [stepD, hp, hm] using he
    rcases List.mem_append.1 key with h1 | h1 <;> simp only [List.mem_singleton] at h1
    · exact Or.inl h1
    · exact Or.inr ⟨temp, h1⟩

theorem stepD_move_of_predict_ok (env : Env) (rp temp : String)
    (hp : env.predict VIDEO_SPACE rp 0 10 "/video" = .ok temp) :
    Event.move temp (GENERATED_DIR ++ ("dream_" ++ env.uuids 2 ++ ".mp4"))
      ∈ (stepD env rp).2 := by
  cases hm : env.moveFile temp (GENERATED_DIR ++ ("dream_" ++ env.uuids 2 ++ ".mp4")) <;>
    simp [stepD, hp, hm]

theorem stepD_ok (env : Env) (rp v : String) (h : (stepD env rp).1 = .ok v) :
    v = "dream_" ++ env.uuids 2 ++ ".mp4" ∧
    ∃ src, Event.move src (GENERATED_DIR ++ v) ∈ (stepD env rp).2 := by
  cases hp : env.predict VIDEO_SPACE rp 0 10 "/video" with
  | error err => simp [stepD, hp] at h
  | ok temp =>
    cases hm : env.moveFile temp (GENERATED_DIR ++ ("dream_" ++ env.uuids 2 ++ ".mp4")) with
    | some err => simp [stepD, hp, hm] at h
    | none =>
      simp only [stepD, hp, hm, Except.ok.injEq] at h
      subst h
      exact ⟨rfl, ⟨temp, stepD_move_of_predict_ok env rp temp hp⟩⟩

theorem tryBlock_events_split (env : Env) (req : Request) :
    (tryBlock env req).2 = (stepB env req (analyze_emotion req.text env.classify).1).2 ∨
    (∃ bp, (tryBlock env req).2 =
        (stepB env req (analyze_emotion req.text env.classify).1).2 ++
        (resize_for_video env bp).2) ∨
    (∃ bp rp, (tryBlock env req).2 =
        (stepB env req (analyze_emotion req.text env.classify).1).2 ++
        (resize_for_video env bp).2 ++ (stepD env rp).2) := by
  rcases hb : stepB env req (analyze_emotion req.text env.classify).1 with ⟨b1, ev⟩
  cases b1 with
  | error e => left; simp [tryBlock, hb]
  | ok base_path =>
    rcases hr : resize_for_video env base_path with ⟨r1, ev2⟩
    cases r1 with
    | error e =>
      right; left
      exact ⟨base_path, by simp [tryBlock, hb, hr]⟩
    | ok resized_path =>
      rcases hd : stepD env resized_path with ⟨d1, ev3⟩
      cases d1 with
      | error e =>
        right; right
        exact ⟨base_path, resized_path, by simp [tryBlock, hb, hr, hd]⟩
      | ok name =>
        right; right
        exact ⟨base_path, resized_path, by simp [tryBlock, hb, hr, hd]⟩

theorem tryBlock_ok (env : Env) (req : Request) (s : Success)
    (h : (tryBlock env req).1 = .ok s) :
    s.emotion = (analyze_emotion req.text env.classify).1 ∧
    ∃ rp, (stepD env rp).1 = .ok s.video_name ∧
      ∀ e ∈ (stepD env rp).2, e ∈ (tryBlock env req).2 := by
  rcases hb : stepB env req (analyze_emotion req.text env.classify).1 with ⟨b1, ev⟩
  cases b1 with
  | error e => simp [tryBlock, hb] at h
  | ok base_path =>
    rcases hr : resize_for_video env base_path with ⟨r1, ev2⟩
    cases r1 with
    | error e => simp [tryBlock, hb, hr] at h
    | ok resized_path =>
      rcases hd : stepD env resized_path with ⟨d1, ev3⟩
      cases d1 with
      | error e => simp [tryBlock, hb, hr, hd] at h
      | ok name =>
        simp only [tryBlock, hb, hr, hd, Except.ok.injEq] at h
        subst h
        refine ⟨rfl, resized_path, by rw [hd], ?_⟩
        intro e he
        simp only [hd] at he
        simp only [tryBlock, hb, hr, hd, List.mem_append]
        exact Or.inr he

theorem upload_write_mem (env : Env) (req : Request) (bytes : List Nat)
    (h : req.image = some bytes) :
    Event.fileWrite (GENERATED_DIR ++ ("upload_" ++ env.uuids 0 ++ ".jpg"))
      (.uploadBytes bytes) ∈ (tryBlock env req).2 := by
  have hB := stepB_upload_eq env req (analyze_emotion req.text env.classify).1 bytes h
  rcases tryBlock_events_split env req with hs | ⟨bp, hs⟩ | ⟨bp, rp, hs⟩ <;>
    rw [hs, hB] <;> simp

theorem tryBlock_event_shapes (env : Env) (req : Request) :
    ∀ e ∈ (tryBlock env req).2,
      (∃ p, e = Event.t2iCall p IMAGE_MODEL) ∨
      (∃ s c, e = Event.fileWrite (s ++ ".jpg") c) ∨
      (∃ rp, e = Event.videoCall rp 0 10 "/video" VIDEO_SPACE) ∨
      (∃ src s, e = Event.move src (s ++ ".mp4")) := by
  intro e he
  rcases tryBlock_events_split env req with hs | ⟨bp, hs⟩ | ⟨bp, rp, hs⟩ <;> rw [hs] at he
  · rcases stepB_events_shape env req _ _ he with h | h
    · exact Or.inl h
    · exact Or.inr (Or.inl h)
  · rcases List.mem_append.1 he with h1 | h1
    · rcases stepB_events_shape env req _ _ h1 with h | h
      · exact Or.inl h
      · exact Or.inr (Or.inl h)
    · obtain ⟨img, he2⟩ := resize_events_shape env bp _ h1
      exact Or.inr (Or.inl ⟨GENERATED_DIR ++ ("resized_" ++ env.uuids 1),
        .jpeg img 85 true, by rw [he2, append_ext_eq]⟩)
  · rcases List.mem_append.1 he with h1 | h1
    · rcases List.mem_append.1 h1 with h2 | h2
      · rcases stepB_events_shape env req _ _ h2 with h | h
        · exact Or.inl h
        · exact Or.inr (Or.inl h)
      · obtain ⟨img, he2⟩ := resize_events_shape env bp _ h2
        exact Or.inr (Or.inl ⟨GENERATED_DIR ++ ("resized_" ++ env.uuids 1),
          .jpeg img 85 true, by rw [he2, append_ext_eq]⟩)
    · rcases stepD_events_shape env rp _ h1 with he2 | ⟨src, he2⟩
      · exact Or.inr (Or.inr (Or.inl ⟨rp, he2⟩))
      · exact Or.inr (Or.inr (Or.inr ⟨src, GENERATED_DIR ++ ("dream_" ++ env.uuids 2),
          by rw [he2, append_ext_eq]⟩))

theorem videoCall_cases (env : Env) (req : Request) (rp : String)
    (motion fps : Nat) (api space : String)
    (hm : Event.videoCall rp motion fps api space ∈ (tryBlock env req).2) :
    motion = 0 ∧ fps = 10 ∧ api = "/video" ∧ space = VIDEO_SPACE ∧
    ∀ e ∈ (stepD env rp).2, e ∈ (tryBlock env req).2 := by
  rcases tryBlock_events_split env req with hs | ⟨bp, hs⟩ | ⟨bp, rp2, hs⟩ <;> rw [hs] at hm
  · rcases stepB_events_shape env req _ _ hm with ⟨p, he⟩ | ⟨s2, c, he⟩ <;> simp at he
  · rcases List.mem_append.1 hm with h1 | h1
    · rcases stepB_events_shape env req _ _ h1 with ⟨p, he⟩ | ⟨s2, c, he⟩ <;> simp at he
    · obtain ⟨img, he⟩ := resize_events_shape env bp _ h1
      simp at he
  · rcases List.mem_append.1 hm with h1 | h1
    · rcases List.mem_append.1 h1 with h2 | h2
      · rcases stepB_events_shape env req _ _ h2 with ⟨p, he⟩ | ⟨s2, c, he⟩ <;> simp at he
      · obtain ⟨img, he⟩ := resize_events_shape env bp _ h2
        simp at he
    · rcases stepD_events_shape env rp2 _ h1 with he | ⟨src, he⟩
      · simp only [Event.videoCall.injEq] at he
        obtain ⟨hrp, h0, h10, hapi, hsp⟩ := he
        subst hrp
        refine ⟨h0, h10, hapi, hsp, ?_⟩
        intro e hev
        rw [hs]
        exact List.mem_append.2 (Or.inr hev)
      · simp at he

theorem jpg_suffix_ne_png (s : String) : ¬ ∃ t : String, s ++ ".jpg" = t ++ ".png" := by
  rintro ⟨t, h⟩
  have hd := congrArg String.data h
  rw [String.data_append, String.data_append] at hd
  have h2 := (List.append_inj' hd (by decide)).2
  exact absurd h2 (by decide)

theorem mp4_suffix_ne_png (s : String) : ¬ ∃ t : String, s ++ ".mp4" = t ++ ".png" := by
  rintro ⟨t, h⟩
  have hd := congrArg String.data h
  rw [String.data_append, String.data_append] at hd
  have h2 := (List.append_inj' hd (by decide)).2
  exact absurd h2 (by decide)

/-! Claims about the orchestrator -/

/-- Claim C2: whenever any pipeline step after emotion classification
raises (the try-block aborts with message e), the handler returns HTTP 500
with body status error and message e, and neither video_url nor emotion
appears among the body keys. Classification itself never raises, so every
error of the try-block arises in a later step. -/
theorem C2_error_response (env : Env) (req : Request) (e : String)
    (h : (tryBlock env req).1 = .error e) :
    (generate env req).1 = { code := 500, body := [("status", "error"), ("message", e)] } ∧
    "video_url" ∉ (generate env req).1.body.map Prod.fst ∧
    "emotion" ∉ (generate env req).1.body.map Prod.fst := by
  rcases ht : tryBlock env req with ⟨r, evs⟩
  rw [ht] at h
  simp only at h
  subst h
  refine ⟨by simp [generate, ht], ?_, ?_⟩ <;> simp [generate, ht]

/-- Witness for C2: a concrete run whose video step raises. -/
theorem C2_error_response_witness :
    (tryBlock envVideoDown reqText).1 = .error "Connection errored out" ∧
    (generate envVideoDown reqText).1 =
      { code := 500, body := [("status", "error"), ("message", "Connection errored out")] } :=
  ⟨rfl, (C2_error_response envVideoDown reqText "Connection errored out" rfl).1⟩

/-- Claim C3: a request carrying an uploaded image persists the uploaded
bytes verbatim under a generated filename inside the generated-assets
directory, and the remote text-to-image service is never invoked in that
run (the two paths are mutually exclusive). -/
theorem C3_upload_no_t2i (env : Env) (req : Request) (bytes : List Nat)
    (h : req.image = some bytes) :
    Event.fileWrite (GENERATED_DIR ++ ("upload_" ++ env.uuids 0 ++ ".jpg"))
      (.uploadBytes bytes) ∈ (generate env req).2 ∧
    ∀ p m, Event.t2iCall p m ∉ (generate env req).2 := by
  rw [generate_events]
  refine ⟨upload_write_mem env req bytes h, ?_⟩
  intro p m hmem
  have hB := stepB_upload_eq env req (analyze_emotion req.text env.classify).1 bytes h
  rcases tryBlock_events_split env req with hs | ⟨bp, hs⟩ | ⟨bp, rp, hs⟩ <;> rw [hs, hB] at hmem
  · simp at hmem
  · rcases List.mem_append.1 hmem with h1 | h1
    · simp at h1
    · obtain ⟨img, he⟩ := resize_events_shape env bp _ h1
      simp at he
  · rcases List.mem_append.1 hmem with h1 | h1
    · rcases List.mem_append.1 h1 with h2 | h2
      · simp at h2
      · obtain ⟨img, he⟩ := resize_events_shape env bp _ h2
        simp at he
    · rcases stepD_events_shape env rp _ h1 with he | ⟨src, he⟩ <;> simp at he

/-- Witness for C3: a PNG upload is written and no text-to-image call
occurs in that concrete run. -/
theorem C3_upload_no_t2i_witness :
    Event.fileWrite (GENERATED_DIR ++ ("upload_" ++ envOk.uuids 0 ++ ".jpg"))
      (.uploadBytes [137, 80, 78, 71]) ∈ (generate envOk reqUpload).2 ∧
    Event.t2iCall "any prompt" IMAGE_MODEL ∉ (generate envOk reqUpload).2 :=
  ⟨(C3_upload_no_t2i envOk reqUpload [137, 80, 78, 71] rfl).1,
   (C3_upload_no_t2i envOk reqUpload [137, 80, 78, 71] rfl).2 "any prompt" IMAGE_MODEL⟩

/-- Claim C4: for every readable base image, the normalizer writes exactly
one output image, at 1024 by 576 pixels, in RGB mode (no alpha channel),
resampled with the Lanczos filter, saved at quality 85 with optimize,
under a fresh resized_ filename in the generated-assets directory. -/
theorem C4_resize_normalizes (env : Env) (image_path : String) (img0 : PImage)
    (h : env.openImage image_path = .ok img0) :
    ∃ img, (resize_for_video env image_path).2 =
        [Event.fileWrite (GENERATED_DIR ++ ("resized_" ++ env.uuids 1 ++ ".jpg"))
          (.jpeg img 85 true)] ∧
      img.width = 1024 ∧ img.height = 576 ∧ img.mode = "RGB" ∧
      img.data = .resized 1024 576 .lanczos (.converted "RGB" img0.data) := by
  refine ⟨(img0.convert "RGB").resizePil (1024, 576) .lanczos, ?_, rfl, rfl, rfl, rfl⟩
  cases hs : env.save (GENERATED_DIR ++ ("resized_" ++ env.uuids 1 ++ ".jpg"))
      (.jpeg ((img0.convert "RGB").resizePil (1024, 576) .lanczos) 85 true) <;>
    simp [resize_for_video, h, hs]

/-- Witness for C4 on a concrete readable RGBA image. -/
theorem C4_resize_normalizes_witness :
    ∃ img, (resize_for_video envOk "base.jpg").2 =
        [Event.fileWrite (GENERATED_DIR ++ ("resized_" ++ envOk.uuids 1 ++ ".jpg"))
          (.jpeg img 85 true)] ∧
      img.width = 1024 ∧ img.height = 576 ∧ img.mode = "RGB" ∧
      img.data = .resized 1024 576 .lanczos (.converted "RGB" (.source 7)) :=
  C4_resize_normalizes envOk "base.jpg" ⟨640, 480, "RGBA", .source 7⟩ rfl

/-- Claim C6: when every pipeline step succeeds, the handler returns HTTP
200 with body status success, a video_url path under the generated-assets
directory pointing at the name the video was moved to, and the detected
emotion label; no message field is present. -/
theorem C6_success_response (env : Env) (req : Request) (s : Success)
    (h : (tryBlock env req).1 = .ok s) :
    (generate env req).1 =
      { code := 200,
        body := [("status", "success"),
                 ("video_url", "/static/generated/" ++ s.video_name),
                 ("emotion", (analyze_emotion req.text env.classify).1)] } ∧
    "message" ∉ (generate env req).1.body.map Prod.fst ∧
    ∃ src, Event.move src (GENERATED_DIR ++ s.video_name) ∈ (generate env req).2 := by
  obtain ⟨hem, rp, hd, hsub⟩ := tryBlock_ok env req s h
  rcases ht : tryBlock env req with ⟨r, evs⟩
  rw [ht] at h
  simp only at h
  subst h
  refine ⟨by simp [generate, ht, hem], by simp [generate, ht], ?_⟩
  obtain ⟨hname, src, hmv⟩ := stepD_ok env rp s.video_name hd
  refine ⟨src, ?_⟩
  rw [generate_events]
  exact hsub _ hmv

/-- Witness for C6: the all-success environment yields the success body. -/
theorem C6_success_response_witness :
    (generate envOk reqText).1 =
      { code := 200,
        body := [("status", "success"),
                 ("video_url", "/static/generated/" ++ ("dream_" ++ "u" ++ ".mp4")),
                 ("emotion", "joy")] } :=
  (C6_success_response envOk reqText ⟨"joy", "dream_" ++ "u" ++ ".mp4"⟩ rfl).1

/-- Claim C8: every video call of any run uses motion strength 0, frame
rate 10, the fixed api endpoint and the fixed space; and when the remote
call succeeds, the temporary video it returned is moved into the
generated-assets directory under a fresh dream_ name with mp4 extension. -/
theorem C8_video_call_params (env : Env) (req : Request) :
    (∀ rp motion fps api space,
       Event.videoCall rp motion fps api space ∈ (generate env req).2 →
       motion = 0 ∧ fps = 10 ∧ api = "/video" ∧ space = VIDEO_SPACE) ∧
    (∀ rp temp, Event.videoCall rp 0 10 "/video" VIDEO_SPACE ∈ (generate env req).2 →
       env.predict VIDEO_SPACE rp 0 10 "/video" = .ok temp →
       Event.move temp (GENERATED_DIR ++ ("dream_" ++ env.uuids 2 ++ ".mp4"))
         ∈ (generate env req).2) := by
  constructor
  · intro rp motion fps api space hm
    rw [generate_events] at hm
    obtain ⟨h0, h10, hapi, hsp, _⟩ := videoCall_cases env req rp motion fps api space hm
    exact ⟨h0, h10, hapi, hsp⟩
  · intro rp temp hm hp
    rw [generate_events] at hm ⊢
    obtain ⟨_, _, _, _, hsub⟩ := videoCall_cases env req rp 0 10 "/video" VIDEO_SPACE hm
    exact hsub _ (stepD_move_of_predict_ok env rp temp hp)

/-- Witness for C8: in the all-success run the temporary video returned by
the remote client is moved to the dream_ name. -/
theorem C8_video_call_params_witness :
    Event.move "/tmp/gradio/abc/video.mp4"
      (GENERATED_DIR ++ ("dream_" ++ envOk.uuids 2 ++ ".mp4"))
      ∈ (generate envOk reqText).2 :=
  (C8_video_call_params envOk reqText).2
    (GENERATED_DIR ++ ("resized_" ++ envOk.uuids 1 ++ ".jpg"))
    "/tmp/gradio/abc/video.mp4" (by decide) rfl

/-- Claim C10: an uploaded image is persisted with the upload_ prefix and
a .jpg extension regardless of its actual format (the PNG magic bytes are
written unchanged under a .jpg name); every file the pipeline writes has a
.jpg name, every move target has a .mp4 name, and no path with a .png
extension is ever created. -/
theorem C10_upload_jpg_never_png :
    (∀ (env : Env) (req : Request) (bytes : List Nat), req.image = some bytes →
       Event.fileWrite (GENERATED_DIR ++ ("upload_" ++ env.uuids 0 ++ ".jpg"))
         (.uploadBytes bytes) ∈ (generate env req).2) ∧
    (∀ (env : Env) (req : Request) (pth : String) (c : FileContent),
       Event.fileWrite pth c ∈ (generate env req).2 → ∃ s, pth = s ++ ".jpg") ∧
    (∀ (env : Env) (req : Request) (src dst : String),
       Event.move src dst ∈ (generate env req).2 → ∃ s, dst = s ++ ".mp4") ∧
    (∀ (env : Env) (req : Request) (pth : String) (c : FileContent),
       Event.fileWrite pth c ∈ (generate env req).2 → ¬ ∃ t, pth = t ++ ".png") ∧
    (∀ (env : Env) (req : Request) (src dst : String),
       Event.move src dst ∈ (generate env req).2 → ¬ ∃ t, dst = t ++ ".png") := by
  have hwrite : ∀ (env : Env) (req : Request) (pth : String) (c : FileContent),
      Event.fileWrite pth c ∈ (generate env req).2 → ∃ s, pth = s ++ ".jpg" := by
    intro env req pth c hm
    rw [generate_events] at hm
    rcases tryBlock_event_shapes env req _ hm with ⟨p, he⟩ | ⟨s, c2, he⟩ | ⟨rp, he⟩ | ⟨src, s, he⟩
    · simp at he
    · simp only [Event.fileWrite.injEq] at he
      exact ⟨s, he.1⟩
    · simp at he
    · simp at he
  have hmove : ∀ (env : Env) (req : Request) (src dst : String),
      Event.move src dst ∈ (generate env req).2 → ∃ s, dst = s ++ ".mp4" := by
    intro env req src dst hm
    rw [generate_events] at hm
    rcases tryBlock_event_shapes env req _ hm with ⟨p, he⟩ | ⟨s, c2, he⟩ | ⟨rp, he⟩ | ⟨src2, s, he⟩
    · simp at he
    · simp at he
    · simp at he
    · simp only [Event.move.injEq] at he
      exact ⟨s, he.2⟩
  refine ⟨?_, hwrite, hmove, ?_, ?_⟩
  · intro env req bytes h
    rw [generate_events]
    exact upload_write_mem env req bytes h
  · intro env req pth c hm hpng
    obtain ⟨s, rfl⟩ := hwrite env req pth c hm
    exact jpg_suffix_ne_png s hpng
  · intro env req src dst hm hpng
    obtain ⟨s, rfl⟩ := hmove env req src dst hm
    exact mp4_suffix_ne_png s hpng

/-- Witness for C10: the PNG upload of the concrete run is stored under a
.jpg name with its bytes unchanged, and that path has no .png extension. -/
theorem C10_upload_jpg_never_png_witness :
    Event.fileWrite (GENERATED_DIR ++ ("upload_" ++ envOk.uuids 0 ++ ".jpg"))
      (.uploadBytes [137, 80, 78, 71]) ∈ (generate envOk reqUpload).2 ∧
    ¬ ∃ t, GENERATED_DIR ++ ("upload_" ++ envOk.uuids 0 ++ ".jpg") = t ++ ".png" :=
  ⟨C10_upload_jpg_never_png.1 envOk reqUpload [137, 80, 78, 71] rfl,
   C10_upload_jpg_never_png.2.2.2.1 envOk reqUpload _ _
     (C10_upload_jpg_never_png.1 envOk reqUpload [137, 80, 78, 71] rfl)⟩

/-! Claim C9: the closed label set -/

/-- Claim C9 as stated is false: the classifier adapter forwards whatever
label the remote service ranks first, without restricting it to the closed
set. With a service returning the label disgust (which the actual remote
emotion model can emit), the success response carries an emotion outside
the closed set joy, sadness, fear, love, anger, surprise, neutral. -/
theorem C9_closed_set_counterexample :
    (generate envDisgust reqText).1.body =
      [("status", "success"),
       ("video_url", "/static/generated/" ++ ("dream_" ++ "u" ++ ".mp4")),
       ("emotion", "disgust")] ∧
    "disgust" ∉
      (["joy", "sadness", "fear", "love", "anger", "surprise", "neutral"] : List String) :=
  ⟨rfl, by decide⟩

/-- Claim C9 amended: the label produced by the classifier adapter is
either the default neutral or one of the labels the remote classification
service returned, verbatim; the code never restricts labels to the closed
set of the specification. -/
theorem C9_label_neutral_or_from_service :
    ∀ (text : Option String)
      (classify : String → String → Except String (List ClassEntry)),
      (analyze_emotion text classify).1 = "neutral" ∨
      ∃ t resp, text = some t ∧ classify t EMOTION_MODEL = .ok resp ∧
        (analyze_emotion text classify).1 ∈ resp.map ClassEntry.label := by
  intro text classify
  cases text with
  | none => exact Or.inl rfl
  | some t =>
    by_cases ht : t = ""
    · exact Or.inl (by simp [analyze_emotion, ht])
    · cases hc : classify t EMOTION_MODEL with
      | error e => exact Or.inl (by simp [analyze_emotion, ht, hc])
      | ok resp =>
        cases hh : (pySortedDesc resp).head? with
        | none => exact Or.inl (by simp [analyze_emotion, ht, hc, hh])
        | some top =>
          right
          refine ⟨t, resp, rfl, hc, ?_⟩
          have hmem : top ∈ pySortedDesc resp := List.mem_of_mem_head? (by simp [hh])
          have htop : top ∈ resp := mem_of_mem_pySortedDesc hmem
          have hval : (analyze_emotion (some t) classify).1 = top.label := by
            simp [analyze_emotion, ht, hc, hh]
          rw [hval]
          exact List.mem_map_of_mem ClassEntry.label htop

end FeelFrame
